import Mathlib

/-!
Shallow embedding of the core of `simple_print` (`src/server.py`): the
single-slot job scheduler (`process_lock` / `current_process`), the process
runner `start_process_and_stream` with its background worker `stream_output`,
the broadcast events (`console_clear`, `console_output`, `open_url`) and the
deferred artifact deletion `delayed_remove`.

Bytes are modelled as `Nat` (0..255), byte strings as `List Nat`.  The child
process, the OS reads and `os.path.exists` are modelled by an explicit
environment record `Env` describing the external world of one run.  Python's
`try/finally` in `stream_output` is modelled by a `Fault` parameter naming the
step at which an unexpected exception is raised; the `finally` clause
(releasing the job slot) runs in every case.
-/

namespace SimplePrint

/-- Mid-sequence state of the UTF-8 decoder: `need` continuation bytes are
still expected, `acc` is the value accumulated so far, and the next byte must
lie in `lo..hi` (the second byte of a three- or four-byte sequence has a
restricted range that rejects overlong forms, surrogates and code points
above U+10FFFF, as CPython's strict decoder does). -/
structure Pending where
  need : Nat
  acc : Nat
  lo : Nat
  hi : Nat
deriving DecidableEq

/-- Consume one lead byte: either emit an ASCII code point, enter a
mid-sequence state, or emit one U+FFFD for an invalid lead. -/
def utf8Lead (b : Nat) : List Nat × Option Pending :=
  if b < 0x80 then ([b], none)
  else if 0xC2 ≤ b ∧ b ≤ 0xDF then ([], some ⟨1, b - 0xC0, 0x80, 0xBF⟩)
  else if b = 0xE0 then ([], some ⟨2, 0, 0xA0, 0xBF⟩)
  else if b = 0xED then ([], some ⟨2, 0xD, 0x80, 0x9F⟩)
  else if 0xE0 ≤ b ∧ b ≤ 0xEF then ([], some ⟨2, b - 0xE0, 0x80, 0xBF⟩)
  else if b = 0xF0 then ([], some ⟨3, 0, 0x90, 0xBF⟩)
  else if b = 0xF4 then ([], some ⟨3, 4, 0x80, 0x8F⟩)
  else if 0xF0 ≤ b ∧ b ≤ 0xF4 then ([], some ⟨3, b - 0xF0, 0x80, 0xBF⟩)
  else ([0xFFFD], none)

/-- Consume one byte in state `st`: a continuation byte in range extends or
completes the pending sequence; anything else replaces the pending maximal
subpart with one U+FFFD and reprocesses the byte as a lead, exactly as
CPython's `errors="replace"` handler does. -/
def utf8Step (st : Option Pending) (b : Nat) : List Nat × Option Pending :=
  match st with
  | none => utf8Lead b
  | some p =>
    if p.lo ≤ b ∧ b ≤ p.hi then
      if p.need = 1 then ([p.acc * 0x40 + (b - 0x80)], none)
      else ([], some ⟨p.need - 1, p.acc * 0x40 + (b - 0x80), 0x80, 0xBF⟩)
    else
      (0xFFFD :: (utf8Lead b).1, (utf8Lead b).2)

/-- Run the decoder over a byte string from state `st`; a sequence left
incomplete at the end of the input becomes one final U+FFFD. -/
def utf8DecodeFrom (st : Option Pending) : List Nat → List Nat
  | [] =>
    match st with
    | none => []
    | some _ => [0xFFFD]
  | b :: rest => (utf8Step st b).1 ++ utf8DecodeFrom (utf8Step st b).2 rest

/-- `bytes.decode("utf-8", errors="replace")` from `src/server.py:346`
(`chunk.decode("utf-8", errors="replace")`), at the level of code points:
each well-formed sequence decodes to its scalar value, each maximal subpart
of an ill-formed sequence is replaced by one U+FFFD. -/
def utf8Decode (l : List Nat) : List Nat :=
  utf8DecodeFrom none l

/-- Whether byte `b` is acceptable in state `st` (a well-formed lead byte, or
a continuation byte in the pending range). -/
def utf8StepOk (st : Option Pending) (b : Nat) : Bool :=
  match st with
  | none => decide (b < 0x80) || (decide (0xC2 ≤ b) && decide (b ≤ 0xF4))
  | some p => decide (p.lo ≤ b) && decide (b ≤ p.hi)

/-- The decoder accepts every byte starting from state `st` and ends outside
any multi-byte sequence. -/
def validUtf8From (st : Option Pending) : List Nat → Bool
  | [] => st.isNone
  | b :: rest => utf8StepOk st b && validUtf8From (utf8Step st b).2 rest

/-- A byte string made only of complete well-formed UTF-8 sequences (the
decoder emits no replacement marker on it). -/
def validUtf8 (l : List Nat) : Bool :=
  validUtf8From none l

/-- The decoded text of one chunk, as a Lean string. -/
def decodeStr (l : List Nat) : String :=
  String.mk ((utf8Decode l).map Char.ofNat)

/-- Concatenation of a list of strings (the text an observer accumulates). -/
def concatStrs : List String → String
  | [] => ""
  | s :: r => s ++ concatStrs r

/-! ## Events, state and the external world -/

/-- A broadcast event, as emitted through `socketio.emit` in `src/server.py`:
`console_clear`, `console_output {data}` and `open_url {url}`. -/
inductive Event where
  | console_clear : Event
  | console_output (data : String) : Event
  | open_url (url : String) : Event
deriving DecidableEq

/-- A child-process handle (`subprocess.Popen` object).  `poll` is the value
`proc.poll()` returns at the instant the job slot is inspected: `none` while
the process is still running, `some code` once it has exited. -/
structure Proc where
  poll : Option Int
deriving DecidableEq

/-- The job slot: the global `current_process` variable guarded by
`process_lock` (`src/server.py:267-268`). -/
abbrev Slot := Option Proc

/-- `current_process is not None and current_process.poll() is None`
(`src/server.py:295`): the slot counts as busy only while it holds a handle
whose `poll()` is still `None`. -/
def slotBusy : Slot → Bool
  | none => false
  | some p => p.poll.isNone

/-- One job request: the arguments of `start_process_and_stream`
(`src/server.py:288-290`). -/
structure Job where
  command : List String
  stdin_data : Option (List Nat)
  welcome_msg : Option String
  end_file : Option String

/-- Host configuration read from the environment, not from the request:
`TARGET_URL = os.getenv("END_URL")` (`src/server.py:21`). -/
structure Host where
  TARGET_URL : String

/-- The external world of one run: the outcome of `subprocess.Popen`, the
outcome of the stdin write, the successive non-empty `read(4096)` chunks
before end-of-stream, the exit code `proc.wait()` returns, and
`os.path.exists`. -/
structure Env where
  spawn : Except String Proc
  stdin_error : Option String
  chunks : List (List Nat)
  retcode : Int
  fileExists : String → Bool

/-- The step of `stream_output`'s `try` body at which an unexpected
exception is raised (`none` = no fault).  `atDrain k` faults after `k`
chunks were streamed. -/
inductive Fault where
  | atStdin : Fault
  | atDrain : Nat → Fault
  | atWait : Fault
  | atArtifact : Fault
deriving DecidableEq

/-! ## Message texts (exact strings from `src/server.py`) -/

/-- `src/server.py:298`. -/
def busyMsg : String := "[process already running – wait for it to finish]\n"

/-- `f"[{welcome_msg}]\n"` (`src/server.py:307`). -/
def welcomeText (m : String) : String := "[" ++ m ++ "]\n"

/-- `f"Failed to start command: {e}\n"` (`src/server.py:322`). -/
def spawnFailText (e : String) : String := "Failed to start command: " ++ e ++ "\n"

/-- `f"[error writing to stdin: {e}]\n"` (`src/server.py:337`). -/
def stdinErrText (e : String) : String := "[error writing to stdin: " ++ e ++ "]\n"

/-- `f"\n[process exited with code {retcode}]\n"` (`src/server.py:352`). -/
def exitText (retcode : Int) : String :=
  "\n[process exited with code " ++ toString retcode ++ "]\n"

/-- The chunk size of `proc.stdout.read(4096)` (`src/server.py:343`). -/
def READ_SIZE : Nat := 4096

/-! ## The pieces of `start_process_and_stream` -/

/-- Python truthiness of an optional string (`if welcome_msg:`,
`if end_file and ...`): `None` and the empty string are falsy. -/
def pyTruthy : Option String → Bool
  | none => false
  | some s => s != ""

/-- `if welcome_msg: socketio.emit("console_output", {data: f"[{welcome_msg}]\n"})`
(`src/server.py:304-308`). -/
def welcomeEvents : Option String → List Event
  | none => []
  | some m => if m != "" then [Event.console_output (welcomeText m)] else []

/-- Events of the stdin step (`src/server.py:329-338`): nothing on success or
when no payload was supplied; one `console_output` when the write raises. -/
def stdinEvents (stdin : Option (List Nat)) (err : Option String) : List Event :=
  match stdin with
  | none => []
  | some _ =>
    match err with
    | none => []
    | some e => [Event.console_output (stdinErrText e)]

/-- The bytes actually written to the child's stdin: the whole payload when
the write succeeds, nothing otherwise. -/
def stdinWrittenVal (stdin : Option (List Nat)) (err : Option String) : Option (List Nat) :=
  match stdin with
  | none => none
  | some d =>
    match err with
    | none => some d
    | some _ => none

/-- Whether `proc.stdin.close()` completed (`src/server.py:333`). -/
def stdinClosedVal (stdin : Option (List Nat)) (err : Option String) : Bool :=
  match stdin with
  | none => false
  | some _ =>
    match err with
    | none => true
    | some _ => false

/-- The drain loop (`src/server.py:341-347`): one `console_output` per
non-empty chunk, stopping at the first empty read. -/
def drainOutputs : List (List Nat) → List Event
  | [] => []
  | c :: rest =>
    if c = [] then []
    else Event.console_output (decodeStr c) :: drainOutputs rest

/-- `delayed_remove(path, delay)` (`src/server.py:276`): schedules deletion of
`path` after `delay` seconds (the Python default delay is `10.0`; the worker
calls it with `30`). -/
def delayed_remove (path : String) (delay : Nat) : String × Nat := (path, delay)

/-- The artifact step (`src/server.py:355-357`):
`if end_file and os.path.exists(end_file):` emit `open_url` with
`TARGET_URL + end_file` and schedule `delayed_remove(end_file, 30)`. -/
def artifactStep (host : Host) (end_file : Option String) (ex : String → Bool) :
    List Event × List (String × Nat) :=
  match end_file with
  | none => ([], [])
  | some f =>
    if f != "" && ex f then
      ([Event.open_url (host.TARGET_URL ++ f)], [delayed_remove f 30])
    else ([], [])

/-- Result of one `stream_output` worker run: the events it emitted, the
deletions it scheduled, what reached the child's stdin, whether `wait()`
completed, and the slot value its `finally` clause leaves behind. -/
structure WorkerResult where
  events : List Event
  scheds : List (String × Nat)
  stdinWritten : Option (List Nat)
  stdinClosed : Bool
  waited : Bool
  current : Slot
deriving DecidableEq

/-- The background worker `stream_output` (`src/server.py:327-362`).  The
`fault` parameter injects an unexpected exception at the named step of the
`try` body; the `finally` clause (`src/server.py:359-362`) sets
`current_process = None` on every path, faulted or not. -/
def stream_output (host : Host) (env : Env) (stdin : Option (List Nat))
    (end_file : Option String) (fault : Option Fault) : WorkerResult :=
  match fault with
  | some Fault.atStdin =>
    { events := [], scheds := [], stdinWritten := none, stdinClosed := false,
      waited := false, current := none }
  | some (Fault.atDrain k) =>
    { events := stdinEvents stdin env.stdin_error ++ drainOutputs (env.chunks.take k),
      scheds := [], stdinWritten := stdinWrittenVal stdin env.stdin_error,
      stdinClosed := stdinClosedVal stdin env.stdin_error,
      waited := false, current := none }
  | some Fault.atWait =>
    { events := stdinEvents stdin env.stdin_error ++ drainOutputs env.chunks,
      scheds := [], stdinWritten := stdinWrittenVal stdin env.stdin_error,
      stdinClosed := stdinClosedVal stdin env.stdin_error,
      waited := false, current := none }
  | some Fault.atArtifact =>
    { events := stdinEvents stdin env.stdin_error ++ drainOutputs env.chunks ++
        [Event.console_output (exitText env.retcode)],
      scheds := [], stdinWritten := stdinWrittenVal stdin env.stdin_error,
      stdinClosed := stdinClosedVal stdin env.stdin_error,
      waited := true, current := none }
  | none =>
    { events := stdinEvents stdin env.stdin_error ++ drainOutputs env.chunks ++
        [Event.console_output (exitText env.retcode)] ++
        (artifactStep host end_file env.fileExists).1,
      scheds := (artifactStep host end_file env.fileExists).2,
      stdinWritten := stdinWrittenVal stdin env.stdin_error,
      stdinClosed := stdinClosedVal stdin env.stdin_error,
      waited := true, current := none }

/-- Result of one `start_process_and_stream` call, run to the end of its
background worker.  `accepted` is true when the busy check passed, `slotSet`
when `current_process` was assigned a fresh process handle
(`src/server.py:311`), `current` is the slot value after the run. -/
structure RunResult where
  events : List Event
  scheds : List (String × Nat)
  current : Slot
  accepted : Bool
  slotSet : Bool
  stdinWritten : Option (List Nat)
  stdinClosed : Bool
  waited : Bool

/-- `start_process_and_stream` (`src/server.py:288-366`), with the background
worker run to completion.  The busy check, the `console_clear` and welcome
emits, the spawn and the slot assignment all happen under one
`with process_lock:` block, modelled as this single function. -/
def start_process_and_stream (host : Host) (env : Env) (job : Job) (st : Slot)
    (fault : Option Fault) : RunResult :=
  if slotBusy st then
    { events := [Event.console_output busyMsg], scheds := [], current := st,
      accepted := false, slotSet := false, stdinWritten := none,
      stdinClosed := false, waited := false }
  else
    match env.spawn with
    | Except.error e =>
      { events := Event.console_clear :: welcomeEvents job.welcome_msg ++
          [Event.console_output (spawnFailText e)],
        scheds := [], current := none, accepted := true, slotSet := false,
        stdinWritten := none, stdinClosed := false, waited := false }
    | Except.ok _ =>
      let w := stream_output host env job.stdin_data job.end_file fault
      { events := Event.console_clear :: welcomeEvents job.welcome_msg ++ w.events,
        scheds := w.scheds, current := w.current, accepted := true,
        slotSet := true, stdinWritten := w.stdinWritten,
        stdinClosed := w.stdinClosed, waited := w.waited }

/-- Whether an event is not an `open_url` event. -/
def isNotUrl : Event → Bool
  | Event.open_url _ => false
  | Event.console_clear => true
  | Event.console_output _ => true

/-- The events of a run other than `open_url` events. -/
def nonUrlEvents (l : List Event) : List Event :=
  l.filter isNotUrl

/-! ## Sample concrete values (used by witnesses and counterexamples) -/

/-- A sample host configuration. -/
def host0 : Host := { TARGET_URL := "http://u/" }

/-- A second host configuration, differing only in `TARGET_URL`. -/
def host1 : Host := { TARGET_URL := "http://v/" }

/-- A handle of a process that is still running (`poll()` is `None`). -/
def proc0 : Proc := { poll := none }

/-- A handle of a process that has already exited with code 0. -/
def procDone : Proc := { poll := some 0 }

/-- The world of a run of `["echo", "hi"]`: spawn succeeds, one chunk
`b"hi\n"`, exit code 0, no file exists. -/
def envEcho : Env :=
  { spawn := Except.ok proc0, stdin_error := none,
    chunks := [[104, 105, 10]], retcode := 0, fileExists := fun _ => false }

/-- The job `{command: ["echo", "hi"]}` with no optional fields. -/
def jobEcho : Job :=
  { command := ["echo", "hi"], stdin_data := none,
    welcome_msg := none, end_file := none }

/-- A world where the spawn fails (nonexistent executable). -/
def envNoExe : Env :=
  { spawn := Except.error "[Errno 2] No such file or directory: 'nope'",
    stdin_error := none, chunks := [], retcode := 0, fileExists := fun _ => false }

/-- The scan job: welcome message and artifact path set
(`src/server.py:369-376`). -/
def jobScan : Job :=
  { command := ["bash", "-c", "unbuffer scanimage ..."], stdin_data := none,
    welcome_msg := some "Beginning scan", end_file := some "scan.pdf" }

/-- A world where the scan succeeds and exactly the file `scan.pdf` exists
afterwards. -/
def envScan : Env :=
  { spawn := Except.ok proc0, stdin_error := none,
    chunks := [[104, 105, 10]], retcode := 0,
    fileExists := fun s => s == "scan.pdf" }

/-- The print job: stdin payload and welcome message set
(`src/server.py:379-398`). -/
def jobPrint : Job :=
  { command := ["lp", "-d", "caos_printer", "-"], stdin_data := some [37, 80, 68, 70],
    welcome_msg := some "Beginning print", end_file := none }

/-- A world where writing to `lp`'s stdin raises `BrokenPipeError`. -/
def envPipeErr : Env :=
  { spawn := Except.ok proc0, stdin_error := some "[Errno 32] Broken pipe",
    chunks := [], retcode := 1, fileExists := fun _ => false }

/-! ## Helper lemmas about the decoder -/

/-- Decoding distributes over concatenation when the first part is made of
complete well-formed sequences starting from state `st`. -/
theorem utf8DecodeFrom_append (a : List Nat) :
    ∀ (st : Option Pending) (b : List Nat), validUtf8From st a = true →
      utf8DecodeFrom st (a ++ b) = utf8DecodeFrom st a ++ utf8DecodeFrom none b := by
  induction a with
  | nil =>
    intro st b h
    cases st with
    | none => simp [utf8DecodeFrom]
    | some p => simp [validUtf8From] at h
  | cons c rest ih =>
    intro st b h
    simp only [validUtf8From, Bool.and_eq_true] at h
    simp only [List.cons_append, utf8DecodeFrom, List.append_eq]
    rw [ih _ b h.2, List.append_assoc]

/-- Decoding distributes over concatenation when the first part is valid
UTF-8. -/
theorem utf8Decode_append (a b : List Nat) (h : validUtf8 a = true) :
    utf8Decode (a ++ b) = utf8Decode a ++ utf8Decode b :=
  utf8DecodeFrom_append a none b h

/-- `decodeStr` distributes over concatenation when the first part is valid
UTF-8. -/
theorem decodeStr_append (a b : List Nat) (h : validUtf8 a = true) :
    decodeStr (a ++ b) = decodeStr a ++ decodeStr b := by
  unfold decodeStr
  rw [utf8Decode_append a b h, List.map_append]
  rfl

/-- When every chunk is valid UTF-8, the concatenation of the decoded chunk
texts is the decoding of the concatenated bytes. -/
theorem concatStrs_map_decodeStr (chunks : List (List Nat))
    (h : ∀ c ∈ chunks, validUtf8 c = true) :
    concatStrs (chunks.map decodeStr) = decodeStr chunks.flatten := by
  induction chunks with
  | nil => rfl
  | cons c cs ih =>
    simp only [List.map_cons, concatStrs, List.flatten_cons]
    rw [decodeStr_append c cs.flatten (h c (by simp)),
      ih (fun d hd => h d (by simp [hd]))]

/-! ## Helper lemmas about the runner -/

/-- With only non-empty chunks, the drain loop emits exactly one
`console_output` per chunk, in order. -/
theorem drainOutputs_eq_map (chunks : List (List Nat)) (h : ∀ c ∈ chunks, c ≠ []) :
    drainOutputs chunks =
      chunks.map fun c => Event.console_output (decodeStr c) := by
  induction chunks with
  | nil => rfl
  | cons c cs ih =>
    simp only [drainOutputs, List.map_cons]
    rw [if_neg (h c (by simp)), ih (fun d hd => h d (by simp [hd]))]

/-- The drain loop never emits an `open_url` event. -/
theorem open_url_notin_drain (u : String) (chunks : List (List Nat)) :
    Event.open_url u ∉ drainOutputs chunks := by
  induction chunks with
  | nil => simp [drainOutputs]
  | cons c cs ih =>
    simp only [drainOutputs]
    split
    · simp
    · simp [ih]

/-- The welcome step never emits an `open_url` event. -/
theorem open_url_notin_welcome (u : String) (w : Option String) :
    Event.open_url u ∉ welcomeEvents w := by
  cases w with
  | none => simp [welcomeEvents]
  | some m =>
    simp only [welcomeEvents]
    split <;> simp

/-- The stdin step never emits an `open_url` event. -/
theorem open_url_notin_stdin (u : String) (s : Option (List Nat)) (e : Option String) :
    Event.open_url u ∉ stdinEvents s e := by
  cases s <;> cases e <;> simp [stdinEvents]

/-- The worker's `finally` clause leaves the slot empty on every path. -/
theorem stream_output_current (host : Host) (env : Env) (stdin : Option (List Nat))
    (end_file : Option String) (fault : Option Fault) :
    (stream_output host env stdin end_file fault).current = none := by
  cases fault with
  | none => rfl
  | some f => cases f <;> rfl

/-- A submission on an empty slot always passes the busy check. -/
theorem accepted_of_empty (host : Host) (env : Env) (job : Job) (fault : Option Fault) :
    (start_process_and_stream host env job none fault).accepted = true := by
  unfold start_process_and_stream
  cases hsp : env.spawn <;> simp [slotBusy, hsp]

/-! ## Claims -/

/-- C1: for every accepted job the job slot is released when the run
finishes — the slot is empty afterwards whatever the environment did and at
whichever step (`stdin`, drain, wait, artifact) an unexpected exception was
raised, because the release is the worker's `finally` clause
(`src/server.py:359-362`) and, on the spawn-failure path, the `except`
handler (`src/server.py:324`).  Consequently any subsequent submission
passes the busy check: the system can never be wedged in the busy state. -/
theorem C1_slot_released_on_every_path (host : Host) (env : Env) (job : Job)
    (st : Slot) (fault : Option Fault)
    (hacc : (start_process_and_stream host env job st fault).accepted = true) :
    (start_process_and_stream host env job st fault).current = none ∧
    ∀ (host2 : Host) (env2 : Env) (job2 : Job) (fault2 : Option Fault),
      (start_process_and_stream host2 env2 job2
        ((start_process_and_stream host env job st fault).current) fault2).accepted = true := by
  have hcur : (start_process_and_stream host env job st fault).current = none := by
    unfold start_process_and_stream at hacc ⊢
    cases hb : slotBusy st with
    | true => simp [hb] at hacc
    | false =>
      cases hsp : env.spawn with
      | error e => simp [hb, hsp]
      | ok p => simp [hb, hsp, stream_output_current]
  refine ⟨hcur, ?_⟩
  intro host2 env2 job2 fault2
  rw [hcur]
  exact accepted_of_empty host2 env2 job2 fault2

/-- Witness for C1: a concrete accepted `echo hi` run leaves the slot empty
and a following submission is accepted. -/
theorem C1_slot_released_on_every_path_witness :
    (start_process_and_stream host0 envEcho jobEcho none none).accepted = true ∧
    ((start_process_and_stream host0 envEcho jobEcho none none).current = none ∧
     ∀ (host2 : Host) (env2 : Env) (job2 : Job) (fault2 : Option Fault),
       (start_process_and_stream host2 env2 job2
         ((start_process_and_stream host0 envEcho jobEcho none none).current) fault2).accepted = true) :=
  ⟨by decide, C1_slot_released_on_every_path host0 envEcho jobEcho none none (by decide)⟩

/-- C2 counterexample: the claim says the slot transitions to non-empty only
when the prior value was empty; but with a prior handle whose `poll()` has
returned an exit code (`procDone`), the busy check
`current_process is not None and current_process.poll() is None`
(`src/server.py:295`) still passes and `current_process` is assigned a fresh
handle, so the transition also happens from a non-empty prior value. -/
theorem C2_counterexample :
    (start_process_and_stream host0 envEcho jobEcho (some procDone) none).slotSet = true ∧
    (some procDone : Slot) ≠ none := by
  constructor
  · decide
  · intro h
    cases h

/-- C2 amended: the occupancy check and the assignment are one atomic
critical section (one `with process_lock:` block, modelled as a single
function), and the slot is assigned a fresh handle only when the prior value
was empty **or held an already-terminated process** (`poll()` not `None`). -/
theorem C2_amended_acquire_guard (host : Host) (env : Env) (job : Job)
    (st : Slot) (fault : Option Fault)
    (h : (start_process_and_stream host env job st fault).slotSet = true) :
    st = none ∨ ∃ p, st = some p ∧ p.poll ≠ none := by
  unfold start_process_and_stream at h
  cases hb : slotBusy st with
  | true => simp [hb] at h
  | false =>
    cases st with
    | none => exact Or.inl rfl
    | some p =>
      refine Or.inr ⟨p, rfl, ?_⟩
      intro hp
      simp [slotBusy, hp] at hb

/-- Witness for the amended C2: the guard condition holds at the concrete
run that acquired the slot over a terminated handle. -/
theorem C2_amended_acquire_guard_witness :
    (start_process_and_stream host0 envEcho jobEcho (some procDone) none).slotSet = true ∧
    ((some procDone : Slot) = none ∨ ∃ p, (some procDone : Slot) = some p ∧ p.poll ≠ none) :=
  ⟨by decide, C2_amended_acquire_guard host0 envEcho jobEcho (some procDone) none (by decide)⟩

/-- C3: when the spawn fails (`subprocess.Popen` raises, `src/server.py:319`)
on an accepted job, the run emits `Clear`, the optional welcome and exactly
one `Output` describing the failure, schedules nothing, writes nothing to
stdin, never waits on the process, releases the slot, and any subsequent
submission is accepted. -/
theorem C3_spawn_failure (host : Host) (env : Env) (job : Job) (st : Slot)
    (fault : Option Fault) (e : String)
    (hsp : env.spawn = Except.error e) (hfree : slotBusy st = false) :
    (start_process_and_stream host env job st fault).events =
      Event.console_clear :: welcomeEvents job.welcome_msg ++
        [Event.console_output (spawnFailText e)] ∧
    (start_process_and_stream host env job st fault).scheds = [] ∧
    (start_process_and_stream host env job st fault).current = none ∧
    (start_process_and_stream host env job st fault).stdinWritten = none ∧
    (start_process_and_stream host env job st fault).waited = false ∧
    ∀ (host2 : Host) (env2 : Env) (job2 : Job) (fault2 : Option Fault),
      (start_process_and_stream host2 env2 job2
        ((start_process_and_stream host env job st fault).current) fault2).accepted = true := by
  unfold start_process_and_stream
  simp only [hfree, hsp, Bool.false_eq_true, if_false, and_true, true_and,
    List.cons_append, and_self, eq_self_iff_true]
  intro host2 env2 job2 fault2
  cases hsp2 : env2.spawn <;> simp [slotBusy, hsp2]

/-- Witness for C3: a concrete run with a nonexistent executable. -/
theorem C3_spawn_failure_witness :
    envNoExe.spawn = Except.error "[Errno 2] No such file or directory: 'nope'" ∧
    slotBusy (none : Slot) = false ∧
    ((start_process_and_stream host0 envNoExe jobScan none none).events =
      Event.console_clear :: welcomeEvents jobScan.welcome_msg ++
        [Event.console_output
          (spawnFailText "[Errno 2] No such file or directory: 'nope'")] ∧
     (start_process_and_stream host0 envNoExe jobScan none none).scheds = [] ∧
     (start_process_and_stream host0 envNoExe jobScan none none).current = none ∧
     (start_process_and_stream host0 envNoExe jobScan none none).stdinWritten = none ∧
     (start_process_and_stream host0 envNoExe jobScan none none).waited = false ∧
     ∀ (host2 : Host) (env2 : Env) (job2 : Job) (fault2 : Option Fault),
       (start_process_and_stream host2 env2 job2
         ((start_process_and_stream host0 envNoExe jobScan none none).current) fault2).accepted = true) :=
  ⟨rfl, rfl,
    C3_spawn_failure host0 envNoExe jobScan none none
      "[Errno 2] No such file or directory: 'nope'" rfl rfl⟩

/-- C4: on an accepted, successfully spawned job the emitted events are
exactly, in order: `Clear`, the optional welcome `Output`, the optional
stdin-failure `Output`, one `Output` per streamed chunk in stream order, the
exit-status `Output`, and the optional `ArtifactReady` (`open_url`) — and in
particular the `echo hi` job with no optional fields produces exactly
`Clear`, `Output("hi\n")`, `Output("\n[process exited with code 0]\n")`. -/
theorem C4_event_order (host : Host) (env : Env) (job : Job) (st : Slot) (p : Proc)
    (hsp : env.spawn = Except.ok p) (hfree : slotBusy st = false)
    (hne : ∀ c ∈ env.chunks, c ≠ []) :
    (start_process_and_stream host env job st none).events =
      Event.console_clear :: welcomeEvents job.welcome_msg ++
        stdinEvents job.stdin_data env.stdin_error ++
        (env.chunks.map fun c => Event.console_output (decodeStr c)) ++
        [Event.console_output (exitText env.retcode)] ++
        (artifactStep host job.end_file env.fileExists).1 ∧
    (start_process_and_stream host0 envEcho jobEcho none none).events =
      [Event.console_clear, Event.console_output "hi\n",
       Event.console_output "\n[process exited with code 0]\n"] := by
  constructor
  · unfold start_process_and_stream stream_output
    simp [hfree, hsp, drainOutputs_eq_map env.chunks hne]
  · decide

/-- Witness for C4: the general ordering applied to the concrete `echo hi`
run. -/
theorem C4_event_order_witness :
    envEcho.spawn = Except.ok proc0 ∧ slotBusy (none : Slot) = false ∧
    (∀ c ∈ envEcho.chunks, c ≠ []) ∧
    ((start_process_and_stream host0 envEcho jobEcho none none).events =
      Event.console_clear :: welcomeEvents jobEcho.welcome_msg ++
        stdinEvents jobEcho.stdin_data envEcho.stdin_error ++
        (envEcho.chunks.map fun c => Event.console_output (decodeStr c)) ++
        [Event.console_output (exitText envEcho.retcode)] ++
        (artifactStep host0 jobEcho.end_file envEcho.fileExists).1 ∧
     (start_process_and_stream host0 envEcho jobEcho none none).events =
      [Event.console_clear, Event.console_output "hi\n",
       Event.console_output "\n[process exited with code 0]\n"]) :=
  ⟨rfl, rfl, by decide,
    C4_event_order host0 envEcho jobEcho none proc0 rfl rfl (by decide)⟩

/-- C5: on a completed job with `end_file` set, if the file exists when the
exit-status event has been emitted then exactly one `open_url` event with
locator `TARGET_URL + end_file` follows it and exactly one deletion with the
fixed delay 30 is scheduled (`src/server.py:355-357`); if the file does not
exist, no `open_url` event occurs anywhere in the run, nothing is scheduled,
and no error event is added.  The hypothesis `env.fileExists "" = false`
records that Python's `os.path.exists("")` is always `False`. -/
theorem C5_artifact_step (host : Host) (env : Env) (job : Job) (st : Slot)
    (p : Proc) (f : String)
    (hsp : env.spawn = Except.ok p) (hfree : slotBusy st = false)
    (hef : job.end_file = some f) (h0 : env.fileExists "" = false) :
    (env.fileExists f = true →
      (start_process_and_stream host env job st none).events =
        Event.console_clear :: welcomeEvents job.welcome_msg ++
          stdinEvents job.stdin_data env.stdin_error ++ drainOutputs env.chunks ++
          [Event.console_output (exitText env.retcode),
           Event.open_url (host.TARGET_URL ++ f)] ∧
      (start_process_and_stream host env job st none).scheds =
        [delayed_remove f 30]) ∧
    (env.fileExists f = false →
      (∀ u, Event.open_url u ∉ (start_process_and_stream host env job st none).events) ∧
      (start_process_and_stream host env job st none).events =
        Event.console_clear :: welcomeEvents job.welcome_msg ++
          stdinEvents job.stdin_data env.stdin_error ++ drainOutputs env.chunks ++
          [Event.console_output (exitText env.retcode)] ∧
      (start_process_and_stream host env job st none).scheds = []) := by
  have hart_t : env.fileExists f = true →
      artifactStep host job.end_file env.fileExists =
        ([Event.open_url (host.TARGET_URL ++ f)], [delayed_remove f 30]) := by
    intro hex
    have hfne : (f != "") = true := by
      rcases eq_or_ne f "" with h | h
      · rw [h, h0] at hex
        cases hex
      · simp [h]
    simp [artifactStep, hef, hfne, hex]
  have hart_f : env.fileExists f = false →
      artifactStep host job.end_file env.fileExists = ([], []) := by
    intro hex
    simp [artifactStep, hef, hex]
  constructor
  · intro hex
    unfold start_process_and_stream stream_output
    simp [hfree, hsp, hart_t hex]
  · intro hex
    unfold start_process_and_stream stream_output
    refine ⟨?_, ?_, ?_⟩
    · intro u
      simp [hfree, hsp, hart_f hex, open_url_notin_welcome,
        open_url_notin_stdin, open_url_notin_drain]
    · simp [hfree, hsp, hart_f hex]
    · simp [hfree, hsp, hart_f hex]

/-- Witness for C5: the concrete scan run where `scan.pdf` exists. -/
theorem C5_artifact_step_witness :
    envScan.spawn = Except.ok proc0 ∧ slotBusy (none : Slot) = false ∧
    jobScan.end_file = some "scan.pdf" ∧ envScan.fileExists "" = false ∧
    ((envScan.fileExists "scan.pdf" = true →
      (start_process_and_stream host0 envScan jobScan none none).events =
        Event.console_clear :: welcomeEvents jobScan.welcome_msg ++
          stdinEvents jobScan.stdin_data envScan.stdin_error ++
          drainOutputs envScan.chunks ++
          [Event.console_output (exitText envScan.retcode),
           Event.open_url (host0.TARGET_URL ++ "scan.pdf")] ∧
      (start_process_and_stream host0 envScan jobScan none none).scheds =
        [delayed_remove "scan.pdf" 30]) ∧
    (envScan.fileExists "scan.pdf" = false →
      (∀ u, Event.open_url u ∉
        (start_process_and_stream host0 envScan jobScan none none).events) ∧
      (start_process_and_stream host0 envScan jobScan none none).events =
        Event.console_clear :: welcomeEvents jobScan.welcome_msg ++
          stdinEvents jobScan.stdin_data envScan.stdin_error ++
          drainOutputs envScan.chunks ++
          [Event.console_output (exitText envScan.retcode)] ∧
      (start_process_and_stream host0 envScan jobScan none none).scheds = [])) :=
  ⟨rfl, rfl, rfl, rfl,
    C5_artifact_step host0 envScan jobScan none proc0 "scan.pdf" rfl rfl rfl rfl⟩

/-- C6: the drain loop emits exactly one `Output` per non-empty bounded
chunk (`read(4096)`, `src/server.py:341-347`), in order, and when no chunk
boundary splits a multi-byte sequence (every chunk is valid UTF-8) the
concatenation of the emitted texts equals the lenient decoding of the
byte-exact concatenation of the child's combined output; undecodable bytes
become U+FFFD replacement markers rather than failures. -/
theorem C6_chunked_decoding (env : Env)
    (hne : ∀ c ∈ env.chunks, c ≠ [])
    (_hbd : ∀ c ∈ env.chunks, c.length ≤ READ_SIZE) :
    drainOutputs env.chunks =
      (env.chunks.map fun c => Event.console_output (decodeStr c)) ∧
    ((∀ c ∈ env.chunks, validUtf8 c = true) →
      concatStrs (env.chunks.map decodeStr) = decodeStr env.chunks.flatten) :=
  ⟨drainOutputs_eq_map env.chunks hne,
   fun hv => concatStrs_map_decodeStr env.chunks hv⟩

/-- Witness for C6: the `echo hi` chunk list. -/
theorem C6_chunked_decoding_witness :
    (∀ c ∈ envEcho.chunks, c ≠ []) ∧
    (∀ c ∈ envEcho.chunks, c.length ≤ READ_SIZE) ∧
    (drainOutputs envEcho.chunks =
      (envEcho.chunks.map fun c => Event.console_output (decodeStr c)) ∧
    ((∀ c ∈ envEcho.chunks, validUtf8 c = true) →
      concatStrs (envEcho.chunks.map decodeStr) = decodeStr envEcho.chunks.flatten)) :=
  ⟨by decide, by decide, C6_chunked_decoding envEcho (by decide) (by decide)⟩

/-- C7: on a successfully spawned job with a stdin payload, if the write
succeeds the whole payload is written and the stream closed
(`src/server.py:331-333`); if the write raises, exactly one `Output` reports
it and the drain and wait steps still run to completion
(`src/server.py:334-352`). -/
theorem C7_stdin_payload (host : Host) (env : Env) (job : Job) (st : Slot)
    (p : Proc) (d : List Nat)
    (hsd : job.stdin_data = some d)
    (hsp : env.spawn = Except.ok p) (hfree : slotBusy st = false) :
    (env.stdin_error = none →
      (start_process_and_stream host env job st none).stdinWritten = some d ∧
      (start_process_and_stream host env job st none).stdinClosed = true) ∧
    (∀ e, env.stdin_error = some e →
      (start_process_and_stream host env job st none).events =
        Event.console_clear :: welcomeEvents job.welcome_msg ++
          [Event.console_output (stdinErrText e)] ++ drainOutputs env.chunks ++
          [Event.console_output (exitText env.retcode)] ++
          (artifactStep host job.end_file env.fileExists).1 ∧
      (start_process_and_stream host env job st none).waited = true) := by
  constructor
  · intro he
    unfold start_process_and_stream stream_output
    simp [hfree, hsp, stdinWrittenVal, stdinClosedVal, hsd, he]
  · intro e he
    unfold start_process_and_stream stream_output
    simp [hfree, hsp, stdinEvents, hsd, he]

/-- Witness for C7: the concrete print job whose `lp` stdin write breaks. -/
theorem C7_stdin_payload_witness :
    jobPrint.stdin_data = some [37, 80, 68, 70] ∧
    envPipeErr.spawn = Except.ok proc0 ∧ slotBusy (none : Slot) = false ∧
    ((envPipeErr.stdin_error = none →
      (start_process_and_stream host0 envPipeErr jobPrint none none).stdinWritten =
        some [37, 80, 68, 70] ∧
      (start_process_and_stream host0 envPipeErr jobPrint none none).stdinClosed = true) ∧
    (∀ e, envPipeErr.stdin_error = some e →
      (start_process_and_stream host0 envPipeErr jobPrint none none).events =
        Event.console_clear :: welcomeEvents jobPrint.welcome_msg ++
          [Event.console_output (stdinErrText e)] ++ drainOutputs envPipeErr.chunks ++
          [Event.console_output (exitText envPipeErr.retcode)] ++
          (artifactStep host0 jobPrint.end_file envPipeErr.fileExists).1 ∧
      (start_process_and_stream host0 envPipeErr jobPrint none none).waited = true)) :=
  ⟨rfl, rfl, rfl,
    C7_stdin_payload host0 envPipeErr jobPrint none proc0 [37, 80, 68, 70] rfl rfl rfl⟩

/-- C8 counterexample: the claim says the welcome `Output`'s text **is** the
welcome message; but the code emits `f"[{welcome_msg}]\n"`
(`src/server.py:307`), so in the accepted scan run with welcome message
`"Beginning scan"` no event carries the text `"Beginning scan"` — the second
event's text is `"[Beginning scan]\n"`. -/
theorem C8_counterexample :
    Event.console_output "Beginning scan" ∉
      (start_process_and_stream host0 envScan jobScan none none).events ∧
    (start_process_and_stream host0 envScan jobScan none none).events.take 2 =
      [Event.console_clear, Event.console_output "[Beginning scan]\n"] := by
  constructor
  · decide
  · decide

/-- C8 amended: on every accepted job with a non-empty welcome message, the
first event is `Clear` and the second is exactly one `Output` whose text is
the welcome message wrapped in square brackets with a trailing newline —
whatever the spawn outcome and wherever a fault strikes later, i.e. both
events are emitted before the child process is spawned. -/
theorem C8_amended_welcome_brackets (host : Host) (env : Env) (job : Job)
    (st : Slot) (fault : Option Fault) (m : String)
    (hm : job.welcome_msg = some m) (hne : m ≠ "") (hfree : slotBusy st = false) :
    (start_process_and_stream host env job st fault).events.take 2 =
      [Event.console_clear, Event.console_output (welcomeText m)] := by
  have hbne : (m != "") = true := by simp [hne]
  unfold start_process_and_stream
  cases hsp : env.spawn <;> simp [hfree, hsp, welcomeEvents, hm, hbne]

/-- Witness for the amended C8: the concrete scan run. -/
theorem C8_amended_welcome_brackets_witness :
    jobScan.welcome_msg = some "Beginning scan" ∧ "Beginning scan" ≠ "" ∧
    slotBusy (none : Slot) = false ∧
    (start_process_and_stream host0 envScan jobScan none none).events.take 2 =
      [Event.console_clear, Event.console_output (welcomeText "Beginning scan")] :=
  ⟨rfl, by decide, rfl,
    C8_amended_welcome_brackets host0 envScan jobScan none none
      "Beginning scan" rfl (by decide) rfl⟩

/-- C9 counterexample: the claim says the emitted events are identical for
two runs of the same job regardless of host environment values; but
`TARGET_URL` comes from the host environment (`os.getenv("END_URL")`,
`src/server.py:21`) and is part of the `open_url` locator: the same scan job
in the same world emits different events under two hosts differing only in
`TARGET_URL`. -/
theorem C9_counterexample :
    (start_process_and_stream host0 envScan jobScan none none).events ≠
      (start_process_and_stream host1 envScan jobScan none none).events := by
  decide

/-- C9 amended: everything but the `open_url` locator is host-independent —
for any two host configurations, the two runs of one job in one world emit
the same events apart from `open_url`, schedule the same deletions, and
every scheduled deletion carries the fixed (hardcoded, not caller-supplied)
delay 30. -/
theorem C9_amended_host_independence (h1 h2 : Host) (env : Env) (job : Job)
    (st : Slot) (fault : Option Fault) :
    nonUrlEvents (start_process_and_stream h1 env job st fault).events =
      nonUrlEvents (start_process_and_stream h2 env job st fault).events ∧
    (start_process_and_stream h1 env job st fault).scheds =
      (start_process_and_stream h2 env job st fault).scheds ∧
    (∀ pd ∈ (start_process_and_stream h1 env job st fault).scheds, pd.2 = 30) := by
  have hart : ∀ (h : Host), (artifactStep h job.end_file env.fileExists).1.filter isNotUrl = [] := by
    intro h
    cases hef : job.end_file with
    | none => simp [artifactStep]
    | some f =>
      simp only [artifactStep]
      split
      · simp [isNotUrl]
      · simp
  have hart2 : (artifactStep h1 job.end_file env.fileExists).2 =
      (artifactStep h2 job.end_file env.fileExists).2 := by
    cases hef : job.end_file with
    | none => rfl
    | some f =>
      simp only [artifactStep]
      split
      · rfl
      · rfl
  have hart30 : ∀ (h : Host) pd, pd ∈ (artifactStep h job.end_file env.fileExists).2 → pd.2 = 30 := by
    intro h pd hpd
    cases hef : job.end_file with
    | none => simp [artifactStep, hef] at hpd
    | some f =>
      simp only [artifactStep, hef] at hpd
      rcases Bool.eq_false_or_eq_true ((f != "") && env.fileExists f) with hc | hc
      · simp [hc, delayed_remove] at hpd
        rw [hpd]
      · simp [hc] at hpd
  unfold start_process_and_stream stream_output
  cases hb : slotBusy st with
  | true => simp
  | false =>
    cases hsp : env.spawn with
    | error e => simp
    | ok p =>
      rcases fault with _ | f
      · refine ⟨?_, hart2, ?_⟩
        · simp [nonUrlEvents, List.filter_append, hart, isNotUrl]
        · intro pd hpd
          exact hart30 h1 pd hpd
      · cases f <;> simp

/-- Witness for the amended C9: the two concrete hosts on the scan run. -/
theorem C9_amended_host_independence_witness :
    nonUrlEvents (start_process_and_stream host0 envScan jobScan none none).events =
      nonUrlEvents (start_process_and_stream host1 envScan jobScan none none).events ∧
    (start_process_and_stream host0 envScan jobScan none none).scheds =
      (start_process_and_stream host1 envScan jobScan none none).scheds ∧
    (∀ pd ∈ (start_process_and_stream host0 envScan jobScan none none).scheds, pd.2 = 30) :=
  C9_amended_host_independence host0 host1 envScan jobScan none none

/-- C10: empty-string optional fields behave as absent, because Python
truthiness (`if welcome_msg:`, `if end_file and ...`) treats `""` as falsy:
a job with `welcome_msg = ""` runs exactly like one with no welcome message,
and a job with `end_file = ""` skips the `open_url`/`delayed_remove` step
unconditionally (whatever `os.path.exists` would say), exactly like one with
no artifact path. -/
theorem C10_empty_string_optionals (host : Host) (env : Env) (st : Slot)
    (fault : Option Fault) (job : Job) :
    start_process_and_stream host env
        { command := job.command, stdin_data := job.stdin_data,
          welcome_msg := some "", end_file := job.end_file } st fault =
      start_process_and_stream host env
        { command := job.command, stdin_data := job.stdin_data,
          welcome_msg := none, end_file := job.end_file } st fault ∧
    start_process_and_stream host env
        { command := job.command, stdin_data := job.stdin_data,
          welcome_msg := job.welcome_msg, end_file := some "" } st fault =
      start_process_and_stream host env
        { command := job.command, stdin_data := job.stdin_data,
          welcome_msg := job.welcome_msg, end_file := none } st fault := by
  have hw : welcomeEvents (some "") = welcomeEvents none := by
    simp [welcomeEvents]
  have ha : ∀ (ex : String → Bool), artifactStep host (some "") ex = artifactStep host none ex := by
    intro ex
    simp [artifactStep]
  constructor
  · unfold start_process_and_stream
    cases hb : slotBusy st <;> cases hsp : env.spawn <;> simp [hw]
  · unfold start_process_and_stream stream_output
    cases hb : slotBusy st <;> cases hsp : env.spawn <;> rcases fault with _ | f <;>
      simp [ha]

end SimplePrint
